import Mathlib

/-!
Shallow embedding of the zRafaF/video_compressor batch transcoding scripts.

The repository contains two current variants and several older ones:
* `src/compress.py`       -- the "main" variant (GPU H.265 compressor v17),
* `src/compress_crf.py`   -- the "CRF" variant (GPU-only H.265 encoder),
* `src/old/compress_h265.py` -- the old parallel (GPU + CPU worker pool) variant.

External effects (ffprobe / ffmpeg subprocesses, the filesystem) are modelled
as explicit inputs: an abstract ffprobe response, engine pass exit codes, and
file sizes are fields of a per-file context record, and each per-file pipeline
is a pure function from that context to a status together with a trace of the
observable actions it performed (probe run, engine started, copies, removals).
Python ints are ℤ (ℕ for file sizes, which are non-negative), and the float
arithmetic of the scripts is modelled over ℚ; every counterexample below is
evaluated at rationals that are exactly representable as binary doubles, so
the ℚ model and the Python float computation agree there.
-/

namespace VC

/-! ### Configuration constants, from the sources -/

/-- `TARGET_BITRATE_KBPS = 2000` in `src/compress.py`. -/
def TARGET_BITRATE_KBPS : ℤ := 2000

/-- `MINIMUM_COMPRESSION_PERCENT = 10` in `src/compress.py`. -/
def MINIMUM_COMPRESSION_PERCENT : ℚ := 10

/-- `BITRATE_THRESHOLD = 2_000_000` in `src/compress_crf.py` and
`src/old/compress_h265.py`. -/
def BITRATE_THRESHOLD : ℤ := 2000000

/-- The rate-control mode of the selected preset in `src/compress.py`
(`QUALITY_PRESETS[..]["MODE"]`, either `"VBR"` or `"CQ"`). -/
inductive Mode
  | vbr
  | cq
deriving DecidableEq

/-- `bitrate_threshold_kbps = TARGET_BITRATE_KBPS if preset_config["MODE"] == "VBR"
else 2500` (src/compress.py line 363). -/
def bitrate_threshold_kbps (mode : Mode) : ℤ :=
  match mode with
  | .vbr => TARGET_BITRATE_KBPS
  | .cq => 2500

/-! ### The abstract ffprobe response

`get_video_details` parses a JSON document produced by ffprobe.  We embed the
parse results of the individual fields rather than raw JSON text: a field is
either absent, present but unparseable (Python `float()` / `int()` raises
`ValueError`), or carries a parsed value.  The string-level guards the scripts
perform (`duration_str != "0"`, `"/" in fr_str`) are kept as dedicated
constructors. -/

/-- The `duration` field of the first video stream.
`zeroLit` is the literal string `"0"` (also the default
`stream.get("duration", "0")` supplies in `src/compress.py`). -/
inductive DurField
  | absent
  | unparseable
  | zeroLit
  | value (q : ℚ)
deriving DecidableEq

/-- The `avg_frame_rate` field.  `noSlash` means the string contains no `/`;
`unparseable` means it has a `/` but `int()` of a component raises. -/
inductive FrField
  | absent
  | noSlash
  | unparseable
  | value (num den : ℤ)
deriving DecidableEq

/-- The fields of `streams[0]` that the scripts read.  `bit_rate` and
`nb_frames` are `int(stream.get(.., 0))`. -/
structure ProbeStream where
  codec_name : Option String
  bit_rate : ℤ
  nb_frames : ℤ
  duration : DurField
  avg_frame_rate : FrField
deriving DecidableEq

/-- Outcome of the `ffprobe -show_streams` invocation: `failed` covers
`subprocess.CalledProcessError` and `json.JSONDecodeError`; otherwise the
parsed `streams` array. -/
inductive FfprobeResp
  | failed
  | streams (l : List ProbeStream)
deriving DecidableEq

/-- Outcome of the secondary `ffprobe -show_format` invocation of
`src/compress.py` (container-level bit rate fallback). -/
inductive FmtResp
  | failed
  | value (bit_rate : ℤ)
deriving DecidableEq

/-- Python `int()` applied to a float: truncation toward zero. -/
def pytrunc (q : ℚ) : ℤ :=
  if 0 ≤ q then ⌊q⌋ else ⌈q⌉

/-- The computation `int(duration * (num / den))` of `src/compress.py`
line 116, reached once the `"/" in fr_str and duration_str != "0"` guard has
passed and both parses succeeded; a zero denominator leaves 0 (the `den != 0`
check, with `ZeroDivisionError` also caught). -/
def derivedFramesValMain (dur : DurField) (num den : ℤ) : ℤ :=
  match dur with
  | .value d => if den ≠ 0 then pytrunc (d * ((num : ℚ) / (den : ℚ))) else 0
  | .absent => 0
  | .zeroLit => 0
  | .unparseable => 0

/-- The frame-count fallback of `src/compress.py` lines 106-119: when
`nb_frames` is 0, derive `total_frames = int(duration * (num / den))`, guarded
by `"/" in fr_str and duration_str != "0"`, with `ValueError` /
`ZeroDivisionError` caught (leaving 0).  A missing `avg_frame_rate` defaults
to the string `"0/1"`; a missing or literally-`"0"` duration fails the guard. -/
def derivedFramesMain (dur : DurField) (fr : FrField) : ℤ :=
  match fr with
  | .absent => derivedFramesValMain dur 0 1
  | .noSlash => 0
  | .unparseable => 0
  | .value num den => derivedFramesValMain dur num den

/-- `get_video_details` of `src/compress.py` (lines 58-128): returns
`(codec, bit_rate, total_frames)`.  An empty `streams` array returns
`(None, 0, 0)`; a zero stream bit rate triggers the container-level fallback
query (whose own failure is caught by the same handler, returning
`(None, 0, 0)`); tool/parse failure returns `(None, 0, 0)`. -/
def get_video_details_main (resp : FfprobeResp) (fmt : FmtResp) :
    Option String × ℤ × ℤ :=
  match resp with
  | .failed => (none, 0, 0)
  | .streams [] => (none, 0, 0)
  | .streams (s :: _) =>
    let tf := if s.nb_frames = 0 then derivedFramesMain s.duration s.avg_frame_rate
              else s.nb_frames
    if s.bit_rate = 0 then
      match fmt with
      | .failed => (none, 0, 0)
      | .value b => (s.codec_name, b, tf)
    else (s.codec_name, s.bit_rate, tf)

/-- `get_video_details` of `src/compress_crf.py` (lines 26-59), identical in
`src/old/compress_h265.py` (lines 28-58).  The whole body sits under a blanket
`except Exception: return None, 0, 0`, so an unparseable `duration` or
`avg_frame_rate` discards the codec and bit rate as well; `streams[0]` on an
empty array raises `IndexError`, also caught.  The frame derivation is guarded
by `"duration" in stream and "avg_frame_rate" in stream`.
`crfFrCompute` is the continuation after `duration` parsed to `d`: the
`"/" in frame_rate_str` check, the `map(int, ..)` parse (raising into the
blanket handler), and the `den != 0` check. -/
def crfFrCompute (s : ProbeStream) (d : ℚ) (fr : FrField) : Option String × ℤ × ℤ :=
  match fr with
  | .noSlash => (s.codec_name, s.bit_rate, 0)
  | .unparseable => (none, 0, 0)
  | .absent => (s.codec_name, s.bit_rate, 0)
  | .value num den =>
    if den ≠ 0 then (s.codec_name, s.bit_rate, pytrunc (d * ((num : ℚ) / (den : ℚ))))
    else (s.codec_name, s.bit_rate, 0)

/-- `get_video_details` of `src/compress_crf.py` (lines 26-59), see the
comment on `crfFrCompute` above for the parsing details. -/
def get_video_details_crf (resp : FfprobeResp) : Option String × ℤ × ℤ :=
  match resp with
  | .failed => (none, 0, 0)
  | .streams [] => (none, 0, 0)
  | .streams (s :: _) =>
    if s.nb_frames = 0 then
      match s.duration, s.avg_frame_rate with
      | .absent, _ => (s.codec_name, s.bit_rate, 0)
      | _, .absent => (s.codec_name, s.bit_rate, 0)
      | .unparseable, _ => (none, 0, 0)
      | .zeroLit, fr => crfFrCompute s 0 fr
      | .value q, fr => crfFrCompute s q fr
    else (s.codec_name, s.bit_rate, s.nb_frames)

/-! ### Planner decisions -/

/-- The copy-vs-encode decision of `src/compress.py` line 366:
`codec == "hevc" and (0 < bit_rate < (bitrate_threshold_kbps * 1000))`. -/
def planCopyMain (mode : Mode) (codec : Option String) (bitRate : ℤ) : Bool :=
  decide (codec = some "hevc") && decide (0 < bitRate) &&
    decide (bitRate < bitrate_threshold_kbps mode * 1000)

/-- The copy-vs-encode decision of `src/compress_crf.py` line 183 and
`src/old/compress_h265.py` line 201:
`codec == "hevc" or (0 < bit_rate < BITRATE_THRESHOLD)`. -/
def planCopyCrf (codec : Option String) (bitRate : ℤ) : Bool :=
  decide (codec = some "hevc") ||
    (decide (0 < bitRate) && decide (bitRate < BITRATE_THRESHOLD))

/-! ### Engine execution (compress_video_gpu of src/compress.py) -/

/-- `compress_video_gpu` of `src/compress.py`, abstracted over the engine
process exit codes.  VBR mode (lines 236-275): pass 1 runs; a nonzero exit
returns `False` before pass 2 is ever launched; otherwise pass 2 runs and its
exit code decides success.  CQ mode (lines 277-317): one process.  The result
is `(success, pass2Started)`. -/
def runEngineMain (mode : Mode) (e1 e2 : ℤ) : Bool × Bool :=
  match mode with
  | .vbr => if e1 = 0 then (decide (e2 = 0), true) else (false, false)
  | .cq => (decide (e1 = 0), false)

/-! ### Per-file pipeline of src/compress.py -/

/-- The per-file environment: what the filesystem and the external processes
would answer for this file. -/
structure FileCtx where
  isVideo : Bool
  outputExists : Bool
  resp : FfprobeResp
  fmt : FmtResp
  pass1Exit : ℤ
  pass2Exit : ℤ
  encOutExists : Bool
  encOutSize : ℕ
  inputSize : ℕ
deriving DecidableEq

/-- Job statuses (the scripts print these outcomes; `src/old/compress_h265.py`
returns them as strings). -/
inductive Status
  | skipped
  | copiedOther
  | copiedEfficient
  | fallbackCopied
  | compressed
deriving DecidableEq

/-- Observable actions of one per-file job. -/
structure Trace where
  probed : Bool
  engineStarted : Bool
  pass2Started : Bool
  removedOutput : Bool
  copiedOriginal : Bool
  wroteOutput : Bool
deriving DecidableEq

/-- No action taken. -/
def emptyTrace : Trace := ⟨false, false, false, false, false, false⟩

/-- `reduction = ((input_size - output_size) / input_size) * 100`
(src/compress.py line 396), over ℚ. -/
def reduction_percent (inputSize outputSize : ℕ) : ℚ :=
  (((inputSize : ℚ) - (outputSize : ℚ)) / (inputSize : ℚ)) * 100

/-- The loop body of `process_files_recursively` in `src/compress.py`
(lines 336-402) for one file: skip when the output already exists; copy
non-videos; probe; copy already-efficient hevc; otherwise encode, then apply
the outcome policy (fallback copy on engine failure — removing any partial
output first — on a missing/empty output, on a size that did not shrink, or
on a reduction below the minimum). -/
def processFileMain (mode : Mode) (c : FileCtx) : Status × Trace :=
  if c.outputExists then (.skipped, emptyTrace)
  else if c.isVideo = false then
    (.copiedOther, ⟨false, false, false, false, true, true⟩)
  else if planCopyMain mode (get_video_details_main c.resp c.fmt).1
      (get_video_details_main c.resp c.fmt).2.1 then
    (.copiedEfficient, ⟨true, false, false, false, true, true⟩)
  else if (runEngineMain mode c.pass1Exit c.pass2Exit).1 = false then
    (.fallbackCopied, ⟨true, true, (runEngineMain mode c.pass1Exit c.pass2Exit).2,
      c.encOutExists, true, true⟩)
  else if c.encOutExists = false ∨ c.encOutSize = 0 then
    (.fallbackCopied, ⟨true, true, (runEngineMain mode c.pass1Exit c.pass2Exit).2,
      false, true, true⟩)
  else if c.inputSize ≤ c.encOutSize then
    (.fallbackCopied, ⟨true, true, (runEngineMain mode c.pass1Exit c.pass2Exit).2,
      false, true, true⟩)
  else if reduction_percent c.inputSize c.encOutSize < MINIMUM_COMPRESSION_PERCENT then
    (.fallbackCopied, ⟨true, true, (runEngineMain mode c.pass1Exit c.pass2Exit).2,
      false, true, true⟩)
  else
    (.compressed, ⟨true, true, (runEngineMain mode c.pass1Exit c.pass2Exit).2,
      false, false, true⟩)

/-! ### Per-file pipeline of src/compress_crf.py -/

/-- The loop body of `process_files_recursively` in `src/compress_crf.py`
(lines 168-200) for one file.  There is no size policy: `compress_video_gpu`
itself copies the original over the output when ffmpeg exits nonzero
(line 151-153), without removing the partial output first. -/
def processFileCrf (c : FileCtx) : Status × Trace :=
  if c.outputExists then (.skipped, emptyTrace)
  else if c.isVideo = false then
    (.copiedOther, ⟨false, false, false, false, true, true⟩)
  else if planCopyCrf (get_video_details_crf c.resp).1
      (get_video_details_crf c.resp).2.1 then
    (.copiedEfficient, ⟨true, false, false, false, true, true⟩)
  else if c.pass1Exit = 0 then
    (.compressed, ⟨true, true, false, false, false, true⟩)
  else
    (.fallbackCopied, ⟨true, true, false, false, true, true⟩)

/-! ### Per-file pipeline of src/old/compress_h265.py -/

/-- Per-file environment of the old parallel variant.  `copyOk` models whether
`shutil.copy2` succeeds in the two guarded copy branches (their `except`
leaves the status at `"error"`). -/
structure OldCtx where
  isVideo : Bool
  outputExists : Bool
  resp : FfprobeResp
  engineExit : ℤ
  encOutSize : ℕ
  inputSize : ℕ
  copyOk : Bool
deriving DecidableEq

/-- The result strings of `process_single_file` in
`src/old/compress_h265.py`. -/
inductive OldStatus
  | skipped
  | copiedVideo
  | copiedOther
  | compressed
  | error
deriving DecidableEq

/-- `process_single_file` of `src/old/compress_h265.py` (lines 179-224),
returning the status string, the `(engineStarted, copiedOriginal)` actions,
and the size of the output file it left behind (`none` when it wrote none).
The compress branch sets `result_status = "compressed"` unconditionally after
`compress_video_h265` returns, even though that function falls back to
copying the original when ffmpeg exits nonzero (lines 158-160). -/
def processSingleFileOld (c : OldCtx) : OldStatus × (Bool × Bool) × Option ℕ :=
  if c.outputExists then (.skipped, (false, false), none)
  else if c.isVideo then
    if planCopyCrf (get_video_details_crf c.resp).1
        (get_video_details_crf c.resp).2.1 then
      if c.copyOk then (.copiedVideo, (false, true), some c.inputSize)
      else (.error, (false, false), none)
    else
      if c.engineExit = 0 then (.compressed, (true, false), some c.encOutSize)
      else (.compressed, (true, true), some c.inputSize)
  else
    if c.copyOk then (.copiedOther, (false, true), some c.inputSize)
    else (.error, (false, false), none)

/-! ### Progress monitoring -/

/-- Python strings are modelled as their character sequences, so that the
line parsing below is structurally computable. -/
abbrev PyStr := List Char

/-- The whitespace characters Python `str.strip()` and `int()` remove. -/
def isPySpace (c : Char) : Bool :=
  c == ' ' || c == '\t' || c == '\n' || c == '\r' || c == '\x0b' || c == '\x0c'

/-- Python `s.strip()`. -/
def pyStrip (s : PyStr) : PyStr :=
  ((s.dropWhile isPySpace).reverse.dropWhile isPySpace).reverse

/-- Python `"=" in line`. -/
def containsEq (s : PyStr) : Bool :=
  s.any (fun c => c == '=')

/-- Python `s.split("=", 1)`: the part before the first `=` and everything
after it. -/
def splitEqOnce (s : PyStr) : PyStr × PyStr :=
  (s.takeWhile (fun c => c != '='), (s.dropWhile (fun c => c != '=')).drop 1)

/-- One `key=value` line of the ffmpeg progress file:
`if "=" in line: key, value = line.strip().split("=", 1)`. -/
def parseLine (line : PyStr) : Option (PyStr × PyStr) :=
  if containsEq line then some (splitEqOnce (pyStrip line)) else none

/-- The `progress_data` dictionary built from the lines read in one poll;
later lines overwrite earlier ones. -/
def progressDict (lines : List PyStr) : List (PyStr × PyStr) :=
  lines.filterMap parseLine

/-- The digits of a decimal numeral, or `none` when empty or non-digit. -/
def digitsVal (s : PyStr) : Option ℤ :=
  if s = [] then none
  else if s.all Char.isDigit then
    some (s.foldl (fun n c => n * 10 + ((c.toNat - '0'.toNat : ℕ) : ℤ)) 0)
  else none

/-- Python `int()` applied to a string: surrounding whitespace tolerated, an
optional sign, then decimal digits; anything else raises (`none`). -/
def pyIntOfStr (s : PyStr) : Option ℤ :=
  match pyStrip s with
  | '+' :: rest => digitsVal rest
  | '-' :: rest => (digitsVal rest).map (fun n => -n)
  | t => digitsVal t

/-- The string `"frame"`. -/
def frameKey : PyStr := ['f', 'r', 'a', 'm', 'e']

/-- `int(progress_data["frame"])` for one poll: the last `frame=` binding,
parsed; `none` when the key is absent or parsing raises (which the monitor of
`src/compress.py` catches, skipping the poll). -/
def lookupFrame (lines : List PyStr) : Option ℤ :=
  match List.lookup frameKey (progressDict lines).reverse with
  | some v => pyIntOfStr v
  | none => none

/-- One poll iteration of `monitor_ffmpeg_progress` in `src/compress.py`
(lines 147-178): the held `last_frame` is replaced only when the parsed frame
is strictly greater (`if current_frame > last_frame`), so stale lower reads
are discarded. -/
def monitorStepMain (last : ℤ) (lines : List PyStr) : ℤ :=
  match lookupFrame lines with
  | some f => if last < f then f else last
  | none => last

/-- The sequence of `last_frame` values held by the monitor of
`src/compress.py` across a run of polls, starting from `last_frame = 0`. -/
def monitorStatesMain (polls : List (List PyStr)) : List ℤ :=
  List.scanl monitorStepMain 0 polls

/-- Python `lines[-12:]`. -/
def lastN (n : ℕ) (l : List α) : List α :=
  l.drop (l.length - n)

/-- One poll of the monitor loop inside `compress_video_gpu` of
`src/compress_crf.py` (lines 110-145): only the last 12 lines read are
parsed, and the parsed frame is displayed directly — there is no
`last_frame` guard — provided `total_frames > 0`. -/
def crfPollFrame (totalFrames : ℤ) (lines : List PyStr) : Option ℤ :=
  if 0 < totalFrames then lookupFrame (lastN 12 lines) else none

/-- The frame values the CRF-variant monitor displays across a run of
polls. -/
def crfDisplayFrames (totalFrames : ℤ) (polls : List (List PyStr)) : List ℤ :=
  polls.filterMap (crfPollFrame totalFrames)

/-! ### Walk filter of src/compress.py -/

/-- Python `f.startswith(".")`. -/
def startswithDot : PyStr → Bool
  | '.' :: _ => true
  | _ => false

/-- The input walk of `src/compress.py` (lines 329-334): a walk entry is a
`(dirpath, filename)` pair, and filenames starting with a dot are excluded by
the `if not f.startswith(".")` clause of the comprehension. -/
def all_files_main (walk : List (PyStr × List PyStr)) : List (PyStr × PyStr) :=
  walk.flatMap (fun d => (d.2.filter (fun f => !startswithDot f)).map (fun f => (d.1, f)))

/-! ### Worker pool scheduler of src/old/compress_h265.py -/

/-- `worker_configs` (lines 264-268): the hardware lane first when present,
then one entry per software (CPU) lane. -/
def worker_configs (hasGpu : Bool) (cpuWorkers : ℕ) : List Bool :=
  (if hasGpu then [true] else []) ++ List.replicate cpuWorkers false

/-- The round-robin assignment loop (lines 271-279):
`use_gpu = worker_configs[i % len(worker_configs)]` routes the i-th file to
the GPU task list or the CPU task list.  Returns
`(gpu_tasks, cpu_tasks)` (indices kept). -/
def assignRR (files : List α) (cfgs : List Bool) : List (ℕ × α) × List (ℕ × α) :=
  files.enum.partition (fun p => cfgs.getD (p.1 % cfgs.length) false)

/-- The run summary of `src/old/compress_h265.py` (lines 344-349): the five
category counts. -/
def summaryTotal (rs : List OldStatus) : ℕ :=
  rs.count .compressed + rs.count .copiedVideo + rs.count .copiedOther +
    rs.count .skipped + rs.count .error

/-- The refinement target for C8, following the spec's words: `totalFrames`
"derived as `round(duration_seconds * frameRateNumerator/frameRateDenominator)`;
if the denominator is zero or parsing fails, it stays 0". -/
def specDerivedFrames (d : ℚ) (num den : ℤ) : ℤ :=
  if den ≠ 0 then round (d * ((num : ℚ) / (den : ℚ))) else 0

/-! ## Helper lemmas -/

/-- One monitor poll of the main variant never decreases the held frame. -/
theorem monitorStepMain_le (last : ℤ) (p : List PyStr) :
    last ≤ monitorStepMain last p := by
  unfold monitorStepMain
  cases lookupFrame p with
  | none => exact le_refl _
  | some f =>
    dsimp only
    split_ifs with hlt
    · exact le_of_lt hlt
    · exact le_refl _

/-- `scanl` starts with its initial accumulator. -/
theorem scanl_head_eq {α β : Type} (f : β → α → β) (b : β) (l : List α) :
    (List.scanl f b l).head? = some b := by
  cases l <;> rfl

/-- A `scanl` of a step that never decreases is a non-decreasing chain. -/
theorem chain_le_scanl {α : Type} (f : ℤ → α → ℤ) (hf : ∀ a x, a ≤ f a x) :
    ∀ (l : List α) (b : ℤ), List.Chain' (· ≤ ·) (List.scanl f b l) := by
  intro l
  induction l with
  | nil => intro b; simp
  | cons p ps ih =>
    intro b
    rw [List.scanl_cons]
    refine List.Chain'.cons' (ih (f b p)) ?_
    intro y hy
    have hy' : (List.scanl f (f b p) ps).head? = some y := hy
    rw [scanl_head_eq] at hy'
    exact (Option.some.inj hy') ▸ hf b p

/-- The five summary categories are exhaustive: their counts add up to the
length of any result list. -/
theorem summaryTotal_eq_length (rs : List OldStatus) : summaryTotal rs = rs.length := by
  induction rs with
  | nil => rfl
  | cons r rs ih =>
    unfold summaryTotal at ih ⊢
    cases r <;> simp [List.count_cons] <;> omega

/-! ## The claims -/

/-- C1: for every probe result whose codec is `"hevc"` and whose bit rate
lies strictly between 0 and the configured threshold, the per-file pipeline
of `src/compress.py` copies the file (status `copiedEfficient`, the original
copied, no engine process started), regardless of the probe's other fields
and of the preset mode; the planner of `src/compress_crf.py` decides Copy for
such a probe as well. -/
theorem c1_efficient_hevc_is_copied (mode : Mode) (c : FileCtx) (br tf : ℤ)
    (hout : c.outputExists = false) (hvid : c.isVideo = true)
    (hdet : get_video_details_main c.resp c.fmt = (some "hevc", br, tf))
    (hpos : 0 < br) (hthr : br < bitrate_threshold_kbps mode * 1000) :
    processFileMain mode c
      = (.copiedEfficient, ⟨true, false, false, false, true, true⟩)
    ∧ planCopyCrf (some "hevc") br = true := by
  have hplan : planCopyMain mode (get_video_details_main c.resp c.fmt).1
      (get_video_details_main c.resp c.fmt).2.1 = true := by
    rw [hdet]
    simp [planCopyMain, hpos, hthr]
  constructor
  · simp [processFileMain, hout, hvid, hplan]
  · simp [planCopyCrf]

/-- C1 witness: a concrete hevc probe at 1 Mb/s (below both the VBR threshold
of 2000 kbps and the CQ threshold of 2500 kbps) is copied without starting
the engine. -/
theorem c1_witness :
    processFileMain .cq
        ⟨true, false, .streams [⟨some "hevc", 1000000, 300, .absent, .absent⟩],
          .value 0, 0, 0, true, 50, 100⟩
      = (.copiedEfficient, ⟨true, false, false, false, true, true⟩)
    ∧ planCopyCrf (some "hevc") 1000000 = true :=
  c1_efficient_hevc_is_copied .cq
    ⟨true, false, .streams [⟨some "hevc", 1000000, 300, .absent, .absent⟩],
      .value 0, 0, 0, true, 50, 100⟩
    1000000 300 rfl rfl (by decide) (by decide) (by decide)

/-- C2 counterexample: in `src/compress_crf.py` the planner decides Copy for
a probe with codec `"hevc"` and `bitRateBps = 0` (the condition is
`codec == "hevc" or (0 < bit_rate < BITRATE_THRESHOLD)`), so the file is
copied and no encode is attempted — refuting the claim that the planner never
decides Copy when the bitrate is unknown. -/
theorem c2_counterexample :
    get_video_details_crf (.streams [⟨some "hevc", 0, 100, .absent, .absent⟩])
      = (some "hevc", 0, 100)
    ∧ planCopyCrf (some "hevc") 0 = true
    ∧ processFileCrf
        ⟨true, false, .streams [⟨some "hevc", 0, 100, .absent, .absent⟩],
          .value 0, 0, 0, true, 50, 100⟩
      = (.copiedEfficient, ⟨true, false, false, false, true, true⟩) := by
  refine ⟨by decide, by decide, by decide⟩

/-- C2 amended: in the main variant (`src/compress.py`) a probe with
`bitRateBps = 0` never yields Copy — an encode is attempted — whatever the
codec; the CRF variant (`src/compress_crf.py`) instead decides Copy on a zero
bitrate exactly when the codec already equals the target `"hevc"`. -/
theorem c2_amended (mode : Mode) (codec : Option String) (c : FileCtx) (tf : ℤ) :
    planCopyMain mode codec 0 = false
    ∧ (planCopyCrf codec 0 = true ↔ codec = some "hevc")
    ∧ (c.outputExists = false → c.isVideo = true →
        get_video_details_main c.resp c.fmt = (codec, 0, tf) →
        (processFileMain mode c).2.engineStarted = true) := by
  refine ⟨?_, ?_, ?_⟩
  · simp [planCopyMain]
  · simp [planCopyCrf]
  · intro hout hvid hdet
    have hplan : planCopyMain mode (get_video_details_main c.resp c.fmt).1
        (get_video_details_main c.resp c.fmt).2.1 = false := by
      rw [hdet]
      simp [planCopyMain]
    simp only [processFileMain, hout, hvid, hplan]
    split_ifs <;> simp_all

/-- C2 amended, witness: a concrete hevc probe whose stream and container bit
rates are both 0 leads the main variant to start the engine. -/
theorem c2_witness :
    planCopyMain .vbr (some "hevc") 0 = false
    ∧ (planCopyCrf (some "hevc") 0 = true ↔ some "hevc" = some "hevc")
    ∧ (processFileMain .vbr
        ⟨true, false, .streams [⟨some "hevc", 0, 100, .absent, .absent⟩],
          .value 0, 1, 0, false, 0, 100⟩).2.engineStarted = true := by
  have h := c2_amended .vbr (some "hevc")
    ⟨true, false, .streams [⟨some "hevc", 0, 100, .absent, .absent⟩],
      .value 0, 1, 0, false, 0, 100⟩ 100
  exact ⟨h.1, h.2.1, h.2.2 rfl rfl (by decide)⟩

/-- C3 counterexample: after a failed probe (`get_video_details` returns the
`(None, 0, 0)` triple) the caller of `src/compress.py` starts the engine and,
when the encode succeeds and shrinks the file, finishes with status
`compressed` and no copy of the original — refuting "the caller then copies
the file rather than encoding it". -/
theorem c3_counterexample :
    get_video_details_main .failed .failed = (none, 0, 0)
    ∧ processFileMain .vbr ⟨true, false, .failed, .failed, 0, 0, true, 40, 100⟩
        = (.compressed, ⟨true, true, true, false, false, true⟩) := by
  constructor
  · decide
  · norm_num [processFileMain, runEngineMain, planCopyMain, get_video_details_main,
      reduction_percent, MINIMUM_COMPRESSION_PERCENT]

/-- C3 amended: a probe-tool run that reports no video stream or whose output
fails to parse is non-fatal and yields the `(None, 0, 0)` triple in both
variants, and the caller then attempts an encode (the engine is started;
a copy happens only as fallback if that encode fails) rather than defaulting
to a copy. -/
theorem c3_amended (mode : Mode) (fmt : FmtResp) (c : FileCtx) :
    get_video_details_main .failed fmt = (none, 0, 0)
    ∧ get_video_details_main (.streams []) fmt = (none, 0, 0)
    ∧ get_video_details_crf .failed = (none, 0, 0)
    ∧ get_video_details_crf (.streams []) = (none, 0, 0)
    ∧ (c.outputExists = false → c.isVideo = true → c.resp = .failed →
        (processFileMain mode c).2.engineStarted = true
        ∧ (processFileCrf c).2.engineStarted = true) := by
  refine ⟨rfl, rfl, rfl, rfl, ?_⟩
  intro hout hvid hresp
  constructor
  · have hplan : planCopyMain mode (get_video_details_main c.resp c.fmt).1
        (get_video_details_main c.resp c.fmt).2.1 = false := by
      rw [hresp]
      simp [planCopyMain, get_video_details_main]
    simp only [processFileMain, hout, hvid, hplan]
    split_ifs <;> simp_all
  · have hplan : planCopyCrf (get_video_details_crf c.resp).1
        (get_video_details_crf c.resp).2.1 = false := by
      rw [hresp]
      simp [planCopyCrf, get_video_details_crf]
    simp only [processFileCrf, hout, hvid, hplan]
    split_ifs <;> simp_all

/-- C3 amended, witness: both pipelines start the engine for a concrete file
whose probe failed. -/
theorem c3_witness :
    (processFileMain .vbr ⟨true, false, .failed, .failed, 1, 0, false, 0, 100⟩).2.engineStarted
        = true
    ∧ (processFileCrf ⟨true, false, .failed, .failed, 1, 0, false, 0, 100⟩).2.engineStarted
        = true :=
  (c3_amended .vbr .failed
    ⟨true, false, .failed, .failed, 1, 0, false, 0, 100⟩).2.2.2.2 rfl rfl rfl

/-- C4 counterexample: in `src/old/compress_h265.py`, once an encode is
attempted the status is the string `"compressed"` unconditionally — here the
engine exits 1, so `compress_video_h265` falls back to copying the original
(output size = input size = 100, not smaller), yet `process_single_file`
still reports `compressed`, refuting "in every other case ... the status is
FallbackCopied, never Compressed". -/
theorem c4_counterexample :
    processSingleFileOld
        ⟨true, false, .streams [⟨some "h264", 5000000, 300, .absent, .absent⟩],
          1, 0, 100, true⟩
      = (.compressed, (true, true), some 100)
    ∧ ¬ (100 < 100) := by
  exact ⟨by decide, by decide⟩

/-- C4 amended: the claimed outcome policy holds for the main variant
(`src/compress.py`): when an encode was run, the status is `compressed` iff
the engine succeeded, the output exists and is non-empty, it is strictly
smaller than the input, and the reduction reaches the configured minimum; in
every other case the status is `fallbackCopied` and the original is copied
over the output.  (The old parallel variant instead reports `compressed`
unconditionally for every encode attempt.) -/
theorem c4_amended (mode : Mode) (c : FileCtx)
    (h : (processFileMain mode c).2.engineStarted = true) :
    ((processFileMain mode c).1 = .compressed ↔
      ((runEngineMain mode c.pass1Exit c.pass2Exit).1 = true ∧ c.encOutExists = true
        ∧ 0 < c.encOutSize ∧ c.encOutSize < c.inputSize
        ∧ MINIMUM_COMPRESSION_PERCENT ≤ reduction_percent c.inputSize c.encOutSize))
    ∧ ((processFileMain mode c).1 ≠ .compressed →
        (processFileMain mode c).1 = .fallbackCopied
        ∧ (processFileMain mode c).2.copiedOriginal = true) := by
  unfold processFileMain at h ⊢
  split_ifs at h ⊢ with h1 h2 h3 h4 h5 h6 h7
  · simp [emptyTrace] at h
  · refine ⟨?_, fun _ => ⟨rfl, rfl⟩⟩
    rw [false_iff]
    intro hr
    rw [h4] at hr
    simp at hr
  · refine ⟨?_, fun _ => ⟨rfl, rfl⟩⟩
    rw [false_iff]
    intro hr
    rcases h5 with h' | h'
    · rw [h'] at hr
      simp at hr
    · exact absurd hr.2.2.1 (by omega)
  · refine ⟨?_, fun _ => ⟨rfl, rfl⟩⟩
    rw [false_iff]
    intro hr
    exact absurd hr.2.2.2.1 (by omega)
  · refine ⟨?_, fun _ => ⟨rfl, rfl⟩⟩
    rw [false_iff]
    intro hr
    exact absurd hr.2.2.2.2 (not_le.mpr h7)
  · simp only [not_or] at h5
    have h4' : (runEngineMain mode c.pass1Exit c.pass2Exit).1 = true := by
      cases hb : (runEngineMain mode c.pass1Exit c.pass2Exit).1
      · exact absurd hb h4
      · rfl
    have hex : c.encOutExists = true := by
      cases hb : c.encOutExists
      · exact absurd hb h5.1
      · rfl
    refine ⟨?_, fun hne => absurd rfl hne⟩
    constructor
    · intro _
      exact ⟨h4', hex, Nat.pos_of_ne_zero h5.2, by omega, not_lt.mp h7⟩
    · intro _
      trivial

/-- C4 amended, witness: a concrete file whose single-pass encode fails is
fallback-copied, never reported compressed. -/
theorem c4_witness :
    ((processFileMain .cq ⟨true, false, .failed, .failed, 1, 0, true, 40, 100⟩).1
        = .compressed ↔
      ((runEngineMain .cq 1 0).1 = true ∧ true = true
        ∧ 0 < 40 ∧ 40 < 100
        ∧ MINIMUM_COMPRESSION_PERCENT ≤ reduction_percent 100 40))
    ∧ ((processFileMain .cq ⟨true, false, .failed, .failed, 1, 0, true, 40, 100⟩).1
          ≠ .compressed →
        (processFileMain .cq ⟨true, false, .failed, .failed, 1, 0, true, 40, 100⟩).1
            = .fallbackCopied
        ∧ (processFileMain .cq
            ⟨true, false, .failed, .failed, 1, 0, true, 40, 100⟩).2.copiedOriginal
            = true) :=
  c4_amended .cq ⟨true, false, .failed, .failed, 1, 0, true, 40, 100⟩ (by decide)

/-- C5 counterexample: the monitor loop of `src/compress_crf.py` has no
last-frame guard — two polls whose latest parsed frames are 5 then 3 make it
display 5 then 3, a sequence that moves backward, refuting the claim for that
cited monitor. -/
theorem c5_counterexample :
    crfDisplayFrames 100 [[['f', 'r', 'a', 'm', 'e', '=', '5']],
        [['f', 'r', 'a', 'm', 'e', '=', '3']]]
      = [5, 3]
    ∧ ¬ List.Chain' (· ≤ ·) [(5 : ℤ), 3] := by
  refine ⟨by decide, ?_⟩
  intro hchain
  rw [List.chain'_cons] at hchain
  exact absurd hchain.1 (by decide)

/-- C5 amended: in the main variant (`src/compress.py`) the held frame value
is monotonically non-decreasing across any sequence of polls, and a poll that
parses a frame no greater than the last observed one leaves the held value
unchanged (the stale value is discarded).  (The CRF variant's monitor has no
such guard and can display a lower frame than previously shown.) -/
theorem c5_amended :
    (∀ polls : List (List PyStr), List.Chain' (· ≤ ·) (monitorStatesMain polls))
    ∧ (∀ (last : ℤ) (lines : List PyStr) (f : ℤ),
        lookupFrame lines = some f → f ≤ last → monitorStepMain last lines = last) := by
  constructor
  · intro polls
    exact chain_le_scanl monitorStepMain monitorStepMain_le polls 0
  · intro last lines f hlook hle
    unfold monitorStepMain
    rw [hlook]
    simp only
    rw [if_neg (not_lt.mpr hle)]

/-- C5 amended, witness: a concrete two-poll run where the second poll parses
frame 3 after frame 5 was observed keeps the held value at 5. -/
theorem c5_witness :
    List.Chain' (· ≤ ·)
      (monitorStatesMain [[['f', 'r', 'a', 'm', 'e', '=', '5']],
        [['f', 'r', 'a', 'm', 'e', '=', '3']]])
    ∧ monitorStepMain 5 [['f', 'r', 'a', 'm', 'e', '=', '3']] = 5 :=
  ⟨c5_amended.1 _,
    c5_amended.2 5 [['f', 'r', 'a', 'm', 'e', '=', '3']] 3 (by decide) (by decide)⟩

/-- C6: in a two-pass (VBR) encode of `src/compress.py`, a nonzero pass-1
exit means pass 2 is never started and the encode reports failure
(`runEngineMain` yields `(false, false)`), and the per-file outcome is a
fallback copy of the original, with any partial output removed first
(`removedOutput` equals the partial output's existence). -/
theorem c6_pass1_failure_short_circuits (c : FileCtx)
    (hout : c.outputExists = false) (hvid : c.isVideo = true)
    (hplan : planCopyMain .vbr (get_video_details_main c.resp c.fmt).1
        (get_video_details_main c.resp c.fmt).2.1 = false)
    (hfail : c.pass1Exit ≠ 0) :
    runEngineMain .vbr c.pass1Exit c.pass2Exit = (false, false)
    ∧ processFileMain .vbr c
        = (.fallbackCopied, ⟨true, true, false, c.encOutExists, true, true⟩) := by
  have hrun : runEngineMain .vbr c.pass1Exit c.pass2Exit = (false, false) := by
    simp [runEngineMain, hfail]
  refine ⟨hrun, ?_⟩
  simp [processFileMain, hout, hvid, hplan, hrun]

/-- C6 witness: a concrete non-hevc file whose pass-1 engine process exits 1
is fallback-copied with pass 2 never started. -/
theorem c6_witness :
    runEngineMain .vbr 1 7 = (false, false)
    ∧ processFileMain .vbr
        ⟨true, false, .streams [⟨some "h264", 5000000, 300, .absent, .absent⟩],
          .value 0, 1, 7, true, 0, 100⟩
      = (.fallbackCopied, ⟨true, true, false, true, true, true⟩) :=
  c6_pass1_failure_short_circuits
    ⟨true, false, .streams [⟨some "h264", 5000000, 300, .absent, .absent⟩],
      .value 0, 1, 7, true, 0, 100⟩
    rfl rfl (by decide) (by decide)

/-- C7: when the output path already exists, both the main variant and the
old parallel variant report Skipped and take no action at all (no probe, no
engine, no copy, no write); every file the main variant processes to
completion writes its output, so a second run over the same file — whose
`outputExists` is then exactly the first run's `wroteOutput` — is Skipped. -/
theorem c7_skip_existing_and_idempotence (mode : Mode) (c : FileCtx) (oc : OldCtx) :
    processFileMain mode { c with outputExists := true } = (.skipped, emptyTrace)
    ∧ (processFileMain mode { c with outputExists := false }).2.wroteOutput = true
    ∧ processFileMain mode
        { c with outputExists :=
            (processFileMain mode { c with outputExists := false }).2.wroteOutput }
        = (.skipped, emptyTrace)
    ∧ processSingleFileOld { oc with outputExists := true }
        = (.skipped, (false, false), none) := by
  have h1 : processFileMain mode { c with outputExists := true } = (.skipped, emptyTrace) := by
    simp [processFileMain]
  have h2 : (processFileMain mode { c with outputExists := false }).2.wroteOutput = true := by
    simp only [processFileMain]
    split_ifs <;> simp_all [emptyTrace]
  refine ⟨h1, h2, ?_, ?_⟩
  · rw [h2]
    exact h1
  · simp [processSingleFileOld]

/-- C8 counterexample: for a stream with no reported frame count,
`duration = 1` second and `avg_frame_rate = 3/2` (all exactly representable
as binary doubles, so the Python float computation is exact here), the code
computes `int(1 * 1.5) = 1` (truncation), while the spec's formula
`round(1 * 3/2)` gives 2 — so `totalFrames` is not derived by rounding. -/
theorem c8_counterexample :
    get_video_details_main (.streams [⟨some "h264", 5, 0, .value 1, .value 3 2⟩])
        (.value 0)
      = (some "h264", 5, 1)
    ∧ specDerivedFrames 1 3 2 = 2
    ∧ (1 : ℤ) ≠ 2 := by
  refine ⟨?_, ?_, by decide⟩
  · norm_num [get_video_details_main, derivedFramesMain, derivedFramesValMain, pytrunc]
  · norm_num [specDerivedFrames, round_eq]

/-- C8 amended: when the probe reports no frame count, `totalFrames` is
derived as `int(duration * num/den)` — truncation toward zero, not rounding —
and it stays 0 when the frame-rate denominator is zero or when the duration
or frame-rate string fails to parse, in both `src/compress.py`
(`derivedFramesMain`) and `src/compress_crf.py`. -/
theorem c8_amended :
    (∀ (q : ℚ) (num den : ℤ), den ≠ 0 →
      derivedFramesValMain (.value q) num den = pytrunc (q * ((num : ℚ) / (den : ℚ))))
    ∧ (∀ (q : ℚ) (num : ℤ), derivedFramesValMain (.value q) num 0 = 0)
    ∧ (∀ dur : DurField, derivedFramesMain dur .unparseable = 0
        ∧ derivedFramesMain dur .noSlash = 0)
    ∧ (∀ fr : FrField, derivedFramesMain .unparseable fr = 0)
    ∧ (∀ (s : ProbeStream) (rest : List ProbeStream) (fmt : FmtResp),
        s.nb_frames = 0 → s.bit_rate ≠ 0 →
        get_video_details_main (.streams (s :: rest)) fmt
          = (s.codec_name, s.bit_rate, derivedFramesMain s.duration s.avg_frame_rate))
    ∧ (∀ (s : ProbeStream) (rest : List ProbeStream) (q : ℚ) (num den : ℤ),
        s.nb_frames = 0 → s.duration = .value q → s.avg_frame_rate = .value num den →
        den ≠ 0 →
        get_video_details_crf (.streams (s :: rest))
          = (s.codec_name, s.bit_rate, pytrunc (q * ((num : ℚ) / (den : ℚ))))) := by
  refine ⟨?_, ?_, ?_, ?_, ?_, ?_⟩
  · intro q num den hden
    simp [derivedFramesValMain, hden]
  · intro q num
    simp [derivedFramesValMain]
  · intro dur
    exact ⟨rfl, rfl⟩
  · intro fr
    cases fr <;> rfl
  · intro s rest fmt h0 hbr
    simp [get_video_details_main, h0, hbr]
  · intro s rest q num den h0 hdur hfr hden
    simp [get_video_details_crf, h0, hdur, hfr, crfFrCompute, hden]

/-- C8 amended, witness: the concrete derivation at duration 1 s and frame
rate 3/2 equals the truncated product, and the main probe parser uses it. -/
theorem c8_witness :
    derivedFramesValMain (.value 1) 3 2 = pytrunc (1 * ((3 : ℚ) / (2 : ℚ)))
    ∧ get_video_details_main (.streams [⟨some "h264", 5, 0, .value 1, .value 3 2⟩])
        (.value 0)
      = (some "h264", 5, derivedFramesMain (.value 1) (.value 3 2)) :=
  ⟨c8_amended.1 1 3 2 (by decide),
    c8_amended.2.2.2.2.1 ⟨some "h264", 5, 0, .value 1, .value 3 2⟩ [] (.value 0)
      (by decide) (by decide)⟩

/-- C9: the scheduler of `src/old/compress_h265.py` assigns files round-robin
over `worker_configs` (the hardware lane first when present, then the
software lanes): the two task lists partition the input — their lengths add
up to the file count and together they are a permutation of the input list —
all files route to software lanes when no hardware lane exists, and for any
per-task outcomes the summary's five category counts sum to the number of
input files. -/
theorem c9_round_robin_assignment :
    ∀ (α : Type) (files : List α) (hasGpu : Bool) (cpuWorkers : ℕ)
      (σ : ℕ × α → OldStatus),
      (assignRR files (worker_configs hasGpu cpuWorkers)).1.length
          + (assignRR files (worker_configs hasGpu cpuWorkers)).2.length
        = files.length
      ∧ List.Perm
          ((assignRR files (worker_configs hasGpu cpuWorkers)).1.map Prod.snd
            ++ (assignRR files (worker_configs hasGpu cpuWorkers)).2.map Prod.snd)
          files
      ∧ summaryTotal
          ((assignRR files (worker_configs hasGpu cpuWorkers)).1.map σ
            ++ (assignRR files (worker_configs hasGpu cpuWorkers)).2.map σ)
        = files.length
      ∧ (assignRR files (worker_configs false cpuWorkers)).1 = [] := by
  intro α files hasGpu cpuWorkers σ
  have hpart : ∀ (cfgs : List Bool),
      assignRR files cfgs
        = (files.enum.filter (fun p => cfgs.getD (p.1 % cfgs.length) false),
           files.enum.filter (fun p => !cfgs.getD (p.1 % cfgs.length) false)) := by
    intro cfgs
    rw [assignRR, List.partition_eq_filter_filter]
    rfl
  have hperm : List.Perm
      ((assignRR files (worker_configs hasGpu cpuWorkers)).1.map Prod.snd
        ++ (assignRR files (worker_configs hasGpu cpuWorkers)).2.map Prod.snd)
      files := by
    rw [hpart]
    dsimp only
    rw [← List.map_append]
    have h0 := (List.filter_append_perm
      (fun p => (worker_configs hasGpu cpuWorkers).getD
        (p.1 % (worker_configs hasGpu cpuWorkers).length) false) files.enum).map Prod.snd
    rw [List.enum_map_snd] at h0
    exact h0
  have hlen : (assignRR files (worker_configs hasGpu cpuWorkers)).1.length
      + (assignRR files (worker_configs hasGpu cpuWorkers)).2.length = files.length := by
    have h0 := hperm.length_eq
    simpa [List.length_append, List.length_map] using h0
  refine ⟨hlen, hperm, ?_, ?_⟩
  · rw [summaryTotal_eq_length]
    simpa [List.length_append, List.length_map] using hlen
  · have hgetD : ∀ i : ℕ, (List.replicate cpuWorkers false).getD i false = false := by
      intro i
      rcases Nat.lt_or_ge i cpuWorkers with hi | hi
      · rw [List.getD_eq_getElem _ _ (by simpa using hi)]
        simp
      · rw [List.getD_eq_default _ _ (by simpa using hi)]
    rw [hpart]
    dsimp only
    have hrep : worker_configs false cpuWorkers = List.replicate cpuWorkers false := by
      simp [worker_configs]
    simp [hrep, hgetD]

/-- C10: in the main variant (`src/compress.py`), any filename beginning with
a dot is excluded from the input walk entirely — it never appears in the file
list the per-file pipeline iterates over, so it is never probed, encoded,
copied or counted. -/
theorem c10_dotfiles_excluded (walk : List (PyStr × List PyStr)) (dp f : PyStr)
    (h : startswithDot f = true) :
    (dp, f) ∉ all_files_main walk := by
  intro hmem
  simp only [all_files_main, List.mem_flatMap, List.mem_map, List.mem_filter] at hmem
  obtain ⟨a, -, x, ⟨-, hx⟩, heq⟩ := hmem
  have hxf : x = f := congrArg Prod.snd heq
  rw [hxf, h] at hx
  simp at hx

/-- C10 witness: the dotfile `".h"` in directory `"d"` is not in the walked
file list, although a sibling `"a"` is walked. -/
theorem c10_witness :
    (['d'], ['.', 'h']) ∉ all_files_main [(['d'], [['.', 'h'], ['a']])] :=
  c10_dotfiles_excluded [(['d'], [['.', 'h'], ['a']])] ['d'] ['.', 'h'] (by decide)

end VC
